import Mathlib

/-!
Shallow embedding of `src/script.js` (kfcactivity dashboard).

Time model: ISO snapshot timestamps are represented by their parsed value
`new Date(ts).getTime()` as an integer number of milliseconds; `Date.now()`
is a parameter `nowMs`.  `cutoffDate.setDate(cutoffDate.getDate() - days)`
subtracts `days` calendar days from now; in this linear-time model a day is
`msPerDay` milliseconds.  `toLocaleDateString` maps an epoch-seconds value
to its calendar date; it is modelled by the day index `localDate`.
-/

def msPerDay : Int := 86400000

/-- A per-member activity record inside a snapshot
(`last_action_timestamp` is epoch seconds, 0 if unknown). -/
structure ActivityRecord where
  last_action_timestamp : Int
  last_action_relative : String
  status : String
deriving DecidableEq, Repr

/-- The JavaScript value found at `snapshot.members[userId]`: the key can be
absent (`undefined`), present but falsy (`null`, `0`, `false`, `""`), or an
activity-record object (objects are always truthy). -/
inductive JsVal where
  | absent : JsVal
  | falsy : JsVal
  | record : ActivityRecord → JsVal
deriving DecidableEq, Repr

/-- JavaScript truthiness of `snapshot.members[userId]`. -/
def JsVal.isTruthy : JsVal → Bool
  | .record _ => true
  | _ => false

/-- One poll snapshot: `timestamp` (parsed instant, ms) and the `members`
object, kept as an association list of member-id keys. -/
structure Snapshot where
  timestamp : Int
  members : List (String × JsVal)
deriving DecidableEq, Repr

/-- Property access `obj[key]` on the `members` object:
the value stored at the key, `undefined` when absent. -/
def jsIndex (m : List (String × JsVal)) (k : String) : JsVal :=
  match m.find? (fun p => p.1 == k) with
  | some p => p.2
  | none => .absent

/-- Member metadata from `data/members.json`. -/
structure Member where
  name : String
  level : Int
  days_in_faction : Int
deriving DecidableEq, Repr

/-- The object pushed by `memberActivity.push({timestamp, ...snapshot.members[userId]})`. -/
structure ActivityEntry where
  timestamp : Int
  last_action_timestamp : Int
  last_action_relative : String
  status : String
deriving DecidableEq, Repr

/-- A summary entry `summary[userId]` produced by `getActivitySummary`. -/
structure SummaryEntry where
  name : String
  level : Int
  days_in_faction : Int
  last_seen_timestamp : Int
  last_seen_relative : String
  days_active : Nat
  total_polls : Nat
deriving DecidableEq, Repr

/-- Lines 60-61: `cutoffDate = new Date(); cutoffDate.setDate(cutoffDate.getDate() - days)`. -/
def cutoffOf (nowMs days : Int) : Int := nowMs - days * msPerDay

/-- Line 85: `new Date(ts * 1000).toLocaleDateString()`, the calendar date of an
epoch-seconds instant, modelled as its day index. -/
def localDate (epochSeconds : Int) : Int := Int.fdiv epochSeconds 86400

def entryOf (s : Snapshot) (r : ActivityRecord) : ActivityEntry :=
  { timestamp := s.timestamp
    last_action_timestamp := r.last_action_timestamp
    last_action_relative := r.last_action_relative
    status := r.status }

/-- The body of the snapshot loop in `getActivitySummary` (lines 69-77):
skip the snapshot when `new Date(snapshot.timestamp) < cutoffDate`, then
push `{timestamp, ...snapshot.members[userId]}` when `snapshot.members[userId]`
is truthy. -/
def snapEntryFor (cutoff : Int) (userId : String) (s : Snapshot) : Option ActivityEntry :=
  if s.timestamp < cutoff then none
  else
    match jsIndex s.members userId with
    | .record r => some (entryOf s r)
    | _ => none

/-- The `memberActivity` list collected by `getActivitySummary` for one member. -/
def memberActivityOf (cutoff : Int) (userId : String) (snapshots : List Snapshot) :
    List ActivityEntry :=
  snapshots.filterMap (snapEntryFor cutoff userId)

/-- The `activeDates` set (lines 81-88): the distinct
`toLocaleDateString` values of the entries with `last_action_timestamp > 0`. -/
def activeDatesOf (memberActivity : List ActivityEntry) : Finset Int :=
  ((memberActivity.filter (fun a => 0 < a.last_action_timestamp)).map
    (fun a => localDate a.last_action_timestamp)).toFinset

/-- Lines 79-99: when `memberActivity.length > 0`, build the summary entry
from `mostRecent = memberActivity[memberActivity.length - 1]`. -/
def summaryEntryFor (cutoff : Int) (snapshots : List Snapshot) (userId : String)
    (member : Member) : Option SummaryEntry :=
  let memberActivity := memberActivityOf cutoff userId snapshots
  match memberActivity.getLast? with
  | none => none
  | some mostRecent =>
      some { name := member.name
             level := member.level
             days_in_faction := member.days_in_faction
             last_seen_timestamp := mostRecent.last_action_timestamp
             last_seen_relative := mostRecent.last_action_relative
             days_active := (activeDatesOf memberActivity).card
             total_polls := memberActivity.length }

/-- Function `getActivitySummary(days)` (lines 58-103).  The `summary` object is kept
as an association list in the iteration order of `membersData`. -/
def getActivitySummary (nowMs days : Int) (snapshots : List Snapshot)
    (membersData : List (String × Member)) : List (String × SummaryEntry) :=
  let cutoffDate := cutoffOf nowMs days
  membersData.filterMap (fun p =>
    (summaryEntryFor cutoffDate snapshots p.1 p.2).map (fun e => (p.1, e)))

/-- Line 146: `minutesAgo = (Date.now() - ts * 1000) / 60000` as an exact rational. -/
def minutesAgoOf (nowMs tsSeconds : Int) : ℚ := ((nowMs : ℚ) - tsSeconds * 1000) / 60000

/-- Lines 148-157: the `statusText` chosen for a row from its elapsed minutes. -/
def presenceLabel (minutesAgo : ℚ) : String :=
  if minutesAgo < 60 then "Online"
  else if minutesAgo < 1440 then "Today"
  else "Offline"

/-- One `<tr>` of the member table (the fields interpolated into the HTML). -/
structure Row where
  userId : String
  name : String
  last_seen_relative : String
  days_active : Nat
  statusText : String
deriving DecidableEq, Repr

/-- Function `renderMembers(summary)` (lines 140-171): sort descending by
`last_seen_timestamp` (JS `sort` is stable; modelled by `mergeSort`), then
emit one row per entry with the presence label of its elapsed minutes. -/
def renderMembers (nowMs : Int) (summary : List (String × SummaryEntry)) : List Row :=
  let sorted := summary.mergeSort
    (fun a b => b.2.last_seen_timestamp ≤ a.2.last_seen_timestamp)
  sorted.map (fun p =>
    { userId := p.1
      name := p.2.name
      last_seen_relative := p.2.last_seen_relative
      days_active := p.2.days_active
      statusText := presenceLabel (minutesAgoOf nowMs p.2.last_seen_timestamp) })

/-- The values shown in the four stat cards. -/
structure Stats where
  totalMembers : Nat
  active24h : Nat
  loggedDays : Int
  lastPoll : Int
deriving DecidableEq, Repr

instance : Inhabited Snapshot := ⟨{ timestamp := 0, members := [] }⟩

/-- Function `renderStats(summary, snapshots)` (lines 105-138).  Only ever called with
a non-empty snapshot list (guarded in `renderDashboard`); the `getD default`
reads stand for the out-of-bounds accesses that cannot happen then.
`minutesAgo < 1440` is the exact condition `(now - ts*1000)/60000 < 1440`,
written multiplied out over the integers. -/
def renderStats (nowMs : Int) (summary : List (String × SummaryEntry))
    (snapshots : List Snapshot) : Stats :=
  let lastPoll := ((snapshots.getLast?).getD default).timestamp
  let active24h := (summary.filter
    (fun p => nowMs - p.2.last_seen_timestamp * 1000 < 1440 * 60000)).length
  let firstDate := ((snapshots.head?).getD default).timestamp
  let lastDate := lastPoll
  let loggedDays := Int.fdiv (lastDate - firstDate) msPerDay + 1
  { totalMembers := summary.length
    active24h := active24h
    loggedDays := loggedDays
    lastPoll := lastPoll }

/-- What ends up in the `membersTable` area after a load cycle. -/
inductive TableView where
  | errorLoadingData : TableView
  | noDataYet : TableView
  | rendered : Stats → List Row → TableView
deriving DecidableEq, Repr

/-- Function `renderDashboard()` (lines 42-56): with no snapshots, show the
"No data yet" placeholder; otherwise aggregate and render stats + table. -/
def renderDashboard (nowMs days : Int) (snapshots : List Snapshot)
    (membersData : List (String × Member)) : TableView :=
  if snapshots.length = 0 then .noDataYet
  else
    let summary := getActivitySummary nowMs days snapshots membersData
    .rendered (renderStats nowMs summary snapshots) (renderMembers nowMs summary)

/-- The body of the snapshot loop in `showActivity` (lines 208-216), written
as the source writes it: a fold over the snapshots with `continue` for
snapshots before the cutoff and a truthiness test on `snapshot.members[userId]`. -/
def showActivityCollect (cutoff : Int) (userId : String) :
    List Snapshot → List ActivityEntry
  | [] => []
  | s :: rest =>
      if s.timestamp < cutoff then showActivityCollect cutoff userId rest
      else
        match jsIndex s.members userId with
        | .record r => entryOf s r :: showActivityCollect cutoff userId rest
        | _ => showActivityCollect cutoff userId rest

/-- Function `showActivity(userId, name)` (lines 200-237): re-derive the in-window
list for one member with its own cutoff computation, then
`memberActivity = memberActivity.reverse()`; the rendered timeline has one
entry per element of the result. -/
def showActivity (nowMs daysRange : Int) (userId : String)
    (snapshots : List Snapshot) : List ActivityEntry :=
  (showActivityCollect (cutoffOf nowMs daysRange) userId snapshots).reverse

/-- Outcome of one `await fetch(...)` plus the later `await response.json()`:
the fetch itself can throw, or return a response that is non-OK, or an OK
response whose `json()` either yields data or throws. -/
inductive FetchOutcome (α : Type) where
  | throwsErr : FetchOutcome α
  | nonOk : FetchOutcome α
  | ok : Except Unit α → FetchOutcome α

/-- Console events of `initializeDashboard`. -/
inductive LogEvent where
  | warnNoActivity : LogEvent
  | warnNoMembers : LogEvent
  | errorLoading : LogEvent
deriving DecidableEq, Repr

/-- Function `initializeDashboard()` (lines 12-34).  Both fetches are awaited first
(lines 14-15), so a throw in either aborts before any `ok` check; then each
non-OK response logs a warning and leaves the dataset at its empty default;
a `json()` throw is caught by the same top-level `catch`, which logs an
error and replaces the member table with the error message. -/
def initializeDashboard (nowMs days : Int)
    (activityFetch : FetchOutcome (List Snapshot))
    (membersFetch : FetchOutcome (List (String × Member))) :
    List LogEvent × TableView :=
  match activityFetch, membersFetch with
  | .throwsErr, _ => ([.errorLoading], .errorLoadingData)
  | _, .throwsErr => ([.errorLoading], .errorLoadingData)
  | .ok (.error _), _ => ([.errorLoading], .errorLoadingData)
  | .ok (.ok _), .ok (.error _) => ([.errorLoading], .errorLoadingData)
  | .nonOk, .ok (.error _) => ([.warnNoActivity, .errorLoading], .errorLoadingData)
  | .ok (.ok ad), .ok (.ok md) => ([], renderDashboard nowMs days ad md)
  | .ok (.ok ad), .nonOk => ([.warnNoMembers], renderDashboard nowMs days ad [])
  | .nonOk, .ok (.ok md) => ([.warnNoActivity], renderDashboard nowMs days [] md)
  | .nonOk, .nonOk =>
      ([.warnNoActivity, .warnNoMembers], renderDashboard nowMs days [] [])

/-! Concrete test data for the scenarios of the spec. -/

def scenarioAMember : Member := { name := "Alpha", level := 10, days_in_faction := 5 }

/-- Scenario A: two snapshots on the same calendar date, both containing `u1`
with the same `last_action_timestamp` 1000. -/
def scenarioASnapshots : List Snapshot :=
  [ { timestamp := 1000000
      members := [("u1", .record { last_action_timestamp := 1000
                                   last_action_relative := "5 minutes ago"
                                   status := "Online" })] }
  , { timestamp := 2000000
      members := [("u1", .record { last_action_timestamp := 1000
                                   last_action_relative := "10 minutes ago"
                                   status := "Online" })] } ]

def scenarioAMembers : List (String × Member) := [("u1", scenarioAMember)]

/-- An input where the chronologically last in-window entry for `u1` has
`last_action_timestamp` 0 while an earlier one has a nonzero timestamp. -/
def scenario9Snapshots : List Snapshot :=
  [ { timestamp := 1000
      members := [("u1", .record { last_action_timestamp := 5
                                   last_action_relative := "1 minute ago"
                                   status := "Online" })] }
  , { timestamp := 2000
      members := [("u1", .record { last_action_timestamp := 0
                                   last_action_relative := "unknown"
                                   status := "Offline" })] } ]

def scenario9Members : List (String × Member) := [("u1", scenarioAMember)]

/-- A snapshot whose `members` object maps `u1` to a falsy value. -/
def falsySnapshot : Snapshot := { timestamp := 1500000, members := [("u1", .falsy)] }

def wEntry : SummaryEntry :=
  { name := "W", level := 1, days_in_faction := 1, last_seen_timestamp := 0
    last_seen_relative := "now", days_active := 1, total_polls := 1 }

def wRow : Row :=
  { userId := "u1", name := "W", last_seen_relative := "now", days_active := 1
    statusText := presenceLabel (minutesAgoOf 0 0) }

/-! Helper lemmas about the embedding. -/

theorem list_ne_nil_iff_exists_mem {α : Type} (l : List α) : l ≠ [] ↔ ∃ x, x ∈ l := by
  constructor
  · exact l.exists_mem_of_ne_nil
  · rintro ⟨x, hx⟩ rfl
    simp at hx

theorem list_toFinset_map {α β : Type} [DecidableEq α] [DecidableEq β]
    (f : α → β) (l : List α) : (l.map f).toFinset = l.toFinset.image f := by
  induction l with
  | nil => rfl
  | cons a l ih => simp [ih]

theorem isTruthy_iff (v : JsVal) : v.isTruthy = true ↔ ∃ r, v = .record r := by
  cases v <;> simp [JsVal.isTruthy]

theorem snapEntryFor_eq_some_iff (c : Int) (uid : String) (s : Snapshot) (a : ActivityEntry) :
    snapEntryFor c uid s = some a ↔
      c ≤ s.timestamp ∧ ∃ r, jsIndex s.members uid = .record r ∧ a = entryOf s r := by
  unfold snapEntryFor
  by_cases hc : s.timestamp < c
  · simp [hc, not_le.mpr hc]
  · cases hj : jsIndex s.members uid <;>
      simp [hc, not_lt.mp hc, eq_comm]

theorem snapEntryFor_isSome (c : Int) (uid : String) (s : Snapshot) :
    (snapEntryFor c uid s).isSome =
      (decide (c ≤ s.timestamp) && (jsIndex s.members uid).isTruthy) := by
  unfold snapEntryFor
  by_cases hc : s.timestamp < c
  · simp [hc, not_le.mpr hc]
  · cases hj : jsIndex s.members uid <;>
      simp [hc, not_lt.mp hc, JsVal.isTruthy]

theorem snapEntryFor_timestamp {c : Int} {uid : String} {s : Snapshot} {a : ActivityEntry}
    (h : snapEntryFor c uid s = some a) : a.timestamp = s.timestamp := by
  rcases (snapEntryFor_eq_some_iff c uid s a).mp h with ⟨-, r, -, rfl⟩
  rfl

theorem mem_memberActivityOf (c : Int) (uid : String) (snaps : List Snapshot)
    (a : ActivityEntry) :
    a ∈ memberActivityOf c uid snaps ↔ ∃ s ∈ snaps, snapEntryFor c uid s = some a := by
  simp [memberActivityOf, List.mem_filterMap]

theorem exists_snapEntryFor_iff (c : Int) (uid : String) (s : Snapshot) :
    (∃ a, snapEntryFor c uid s = some a) ↔
      c ≤ s.timestamp ∧ (jsIndex s.members uid).isTruthy = true := by
  constructor
  · rintro ⟨a, h⟩
    rcases (snapEntryFor_eq_some_iff c uid s a).mp h with ⟨hle, r, hr, -⟩
    exact ⟨hle, by simp [hr, JsVal.isTruthy]⟩
  · rintro ⟨hle, ht⟩
    rcases (isTruthy_iff _).mp ht with ⟨r, hr⟩
    exact ⟨entryOf s r, (snapEntryFor_eq_some_iff c uid s _).mpr ⟨hle, r, hr, rfl⟩⟩

theorem memberActivityOf_ne_nil_iff (c : Int) (uid : String) (snaps : List Snapshot) :
    memberActivityOf c uid snaps ≠ [] ↔
      ∃ s ∈ snaps, c ≤ s.timestamp ∧ (jsIndex s.members uid).isTruthy = true := by
  rw [list_ne_nil_iff_exists_mem]
  constructor
  · rintro ⟨a, ha⟩
    rcases (mem_memberActivityOf c uid snaps a).mp ha with ⟨s, hs, hsome⟩
    rcases (exists_snapEntryFor_iff c uid s).mp ⟨a, hsome⟩ with ⟨hle, ht⟩
    exact ⟨s, hs, hle, ht⟩
  · rintro ⟨s, hs, hle, ht⟩
    rcases (exists_snapEntryFor_iff c uid s).mpr ⟨hle, ht⟩ with ⟨a, ha⟩
    exact ⟨a, (mem_memberActivityOf c uid snaps a).mpr ⟨s, hs, ha⟩⟩

theorem summaryEntryFor_eq_some_iff (c : Int) (snaps : List Snapshot) (uid : String)
    (m : Member) (e : SummaryEntry) :
    summaryEntryFor c snaps uid m = some e ↔
      ∃ mr, (memberActivityOf c uid snaps).getLast? = some mr ∧
        e = { name := m.name, level := m.level, days_in_faction := m.days_in_faction
              last_seen_timestamp := mr.last_action_timestamp
              last_seen_relative := mr.last_action_relative
              days_active := (activeDatesOf (memberActivityOf c uid snaps)).card
              total_polls := (memberActivityOf c uid snaps).length } := by
  unfold summaryEntryFor
  cases h : (memberActivityOf c uid snaps).getLast? <;> simp [h, eq_comm]

theorem mem_getActivitySummary (nowMs days : Int) (snaps : List Snapshot)
    (mems : List (String × Member)) (uid : String) (e : SummaryEntry) :
    (uid, e) ∈ getActivitySummary nowMs days snaps mems ↔
      ∃ m, (uid, m) ∈ mems ∧ summaryEntryFor (cutoffOf nowMs days) snaps uid m = some e := by
  simp only [getActivitySummary, List.mem_filterMap, Option.map_eq_some']
  constructor
  · rintro ⟨⟨uid', m⟩, hm, e', he', heq⟩
    injection heq with h1 h2
    subst h1
    subst h2
    exact ⟨m, hm, he'⟩
  · rintro ⟨m, hm, he⟩
    exact ⟨(uid, m), hm, e, he, rfl⟩

theorem length_filterMap_eq {α β : Type} (f : α → Option β) (l : List α) :
    (l.filterMap f).length = (l.filter (fun a => (f a).isSome)).length := by
  induction l with
  | nil => rfl
  | cons a l ih =>
    cases h : f a <;> simp [List.filterMap_cons, List.filter_cons, h, ih]

theorem memberActivityOf_length (c : Int) (uid : String) (snaps : List Snapshot) :
    (memberActivityOf c uid snaps).length =
      (snaps.filter
        (fun s => decide (c ≤ s.timestamp) && (jsIndex s.members uid).isTruthy)).length := by
  rw [memberActivityOf, length_filterMap_eq]
  congr 1
  exact List.filter_congr (fun s _ => snapEntryFor_isSome c uid s)

theorem showActivityCollect_eq (c : Int) (uid : String) (snaps : List Snapshot) :
    showActivityCollect c uid snaps = memberActivityOf c uid snaps := by
  induction snaps with
  | nil => rfl
  | cons s rest ih =>
    rw [showActivityCollect, memberActivityOf, List.filterMap_cons]
    by_cases hc : s.timestamp < c
    · simp only [hc, if_true, snapEntryFor, ih, memberActivityOf]
    · cases hj : jsIndex s.members uid <;>
        simp only [hc, if_false, hj, snapEntryFor, ih, memberActivityOf]

/-- C1: for every window size `days`, a member-id appears in the result of
`getActivitySummary` iff it is present in the members dataset and at least
one snapshot with timestamp in `[now - days, now]` contains a (truthy) entry
for it; a member whose in-window activity list is empty is omitted. -/
theorem C1_summary_membership (nowMs days : Int) (snaps : List Snapshot)
    (mems : List (String × Member)) (uid : String)
    (hts : ∀ s ∈ snaps, s.timestamp ≤ nowMs) :
    ((∃ e, (uid, e) ∈ getActivitySummary nowMs days snaps mems) ↔
      ((∃ m, (uid, m) ∈ mems) ∧
        ∃ s ∈ snaps, cutoffOf nowMs days ≤ s.timestamp ∧ s.timestamp ≤ nowMs ∧
          (jsIndex s.members uid).isTruthy = true)) ∧
    (memberActivityOf (cutoffOf nowMs days) uid snaps = [] →
      ∀ e, (uid, e) ∉ getActivitySummary nowMs days snaps mems) := by
  have hnotin : memberActivityOf (cutoffOf nowMs days) uid snaps = [] →
      ∀ e, (uid, e) ∉ getActivitySummary nowMs days snaps mems := by
    intro h0 e he
    rcases (mem_getActivitySummary nowMs days snaps mems uid e).mp he with ⟨m, -, hsome⟩
    rcases (summaryEntryFor_eq_some_iff _ _ _ _ _).mp hsome with ⟨mr, hlast, -⟩
    rw [h0] at hlast
    simp at hlast
  refine ⟨?_, hnotin⟩
  constructor
  · rintro ⟨e, he⟩
    rcases (mem_getActivitySummary nowMs days snaps mems uid e).mp he with ⟨m, hm, hsome⟩
    rcases (summaryEntryFor_eq_some_iff _ _ _ _ _).mp hsome with ⟨mr, hlast, -⟩
    have hne : memberActivityOf (cutoffOf nowMs days) uid snaps ≠ [] := by
      intro h0
      rw [h0] at hlast
      simp at hlast
    rcases (memberActivityOf_ne_nil_iff _ _ _).mp hne with ⟨s, hs, hle, ht⟩
    exact ⟨⟨m, hm⟩, s, hs, hle, hts s hs, ht⟩
  · rintro ⟨⟨m, hm⟩, s, hs, hle, -, ht⟩
    have hne : memberActivityOf (cutoffOf nowMs days) uid snaps ≠ [] :=
      (memberActivityOf_ne_nil_iff _ _ _).mpr ⟨s, hs, hle, ht⟩
    refine ⟨_, (mem_getActivitySummary nowMs days snaps mems uid _).mpr
      ⟨m, hm, (summaryEntryFor_eq_some_iff _ _ _ _ _).mpr
        ⟨(memberActivityOf (cutoffOf nowMs days) uid snaps).getLast hne,
         List.getLast?_eq_getLast _ hne, rfl⟩⟩⟩

/-- Witness for C1 at a concrete input. -/
theorem C1_summary_membership_witness :
    (∀ s ∈ scenarioASnapshots, s.timestamp ≤ 2000000) ∧
    (((∃ e, ("u1", e) ∈ getActivitySummary 2000000 7 scenarioASnapshots scenarioAMembers) ↔
      ((∃ m, ("u1", m) ∈ scenarioAMembers) ∧
        ∃ s ∈ scenarioASnapshots, cutoffOf 2000000 7 ≤ s.timestamp ∧ s.timestamp ≤ 2000000 ∧
          (jsIndex s.members "u1").isTruthy = true)) ∧
    (memberActivityOf (cutoffOf 2000000 7) "u1" scenarioASnapshots = [] →
      ∀ e, ("u1", e) ∉ getActivitySummary 2000000 7 scenarioASnapshots scenarioAMembers)) :=
  ⟨by decide, C1_summary_membership 2000000 7 scenarioASnapshots scenarioAMembers "u1" (by decide)⟩

/-- C2: for every member included in the summary, `total_polls` equals the
number of in-window snapshots containing that member-id, and
`days_active` is at most `total_polls`. -/
theorem C2_total_polls (nowMs days : Int) (snaps : List Snapshot)
    (mems : List (String × Member)) (uid : String) (e : SummaryEntry)
    (h : (uid, e) ∈ getActivitySummary nowMs days snaps mems) :
    e.total_polls = (snaps.filter (fun s =>
        decide (cutoffOf nowMs days ≤ s.timestamp) &&
          (jsIndex s.members uid).isTruthy)).length ∧
    e.days_active ≤ e.total_polls := by
  rcases (mem_getActivitySummary nowMs days snaps mems uid e).mp h with ⟨m, -, hsome⟩
  rcases (summaryEntryFor_eq_some_iff _ _ _ _ _).mp hsome with ⟨mr, -, rfl⟩
  constructor
  · exact memberActivityOf_length _ _ _
  · show (activeDatesOf (memberActivityOf (cutoffOf nowMs days) uid snaps)).card ≤
      (memberActivityOf (cutoffOf nowMs days) uid snaps).length
    calc (activeDatesOf (memberActivityOf (cutoffOf nowMs days) uid snaps)).card
        ≤ (((memberActivityOf (cutoffOf nowMs days) uid snaps).filter
            (fun a => 0 < a.last_action_timestamp)).map
              (fun a => localDate a.last_action_timestamp)).length :=
          List.toFinset_card_le _
      _ = ((memberActivityOf (cutoffOf nowMs days) uid snaps).filter
            (fun a => 0 < a.last_action_timestamp)).length := List.length_map _ _
      _ ≤ (memberActivityOf (cutoffOf nowMs days) uid snaps).length :=
          List.length_filter_le _ _

/-- Witness for C2 at a concrete input. -/
theorem C2_total_polls_witness :
    ("u1", { name := "Alpha", level := 10, days_in_faction := 5
             last_seen_timestamp := 1000, last_seen_relative := "10 minutes ago"
             days_active := 1, total_polls := 2 : SummaryEntry }) ∈
        getActivitySummary 2000000 7 scenarioASnapshots scenarioAMembers ∧
    ((2 : Nat) = (scenarioASnapshots.filter (fun s =>
        decide (cutoffOf 2000000 7 ≤ s.timestamp) &&
          (jsIndex s.members "u1").isTruthy)).length ∧
      (1 : Nat) ≤ 2) :=
  ⟨by decide, C2_total_polls 2000000 7 scenarioASnapshots scenarioAMembers "u1"
    { name := "Alpha", level := 10, days_in_faction := 5
      last_seen_timestamp := 1000, last_seen_relative := "10 minutes ago"
      days_active := 1, total_polls := 2 } (by decide)⟩

/-- C7: the timeline list produced by `showActivity` equals the reverse of
the in-window activity list that the aggregator computes for the member,
both using the same cutoff `cutoffOf nowMs days`. -/
theorem C7_timeline_refines_aggregator (nowMs days : Int) (uid : String)
    (snaps : List Snapshot) :
    showActivity nowMs days uid snaps =
      (memberActivityOf (cutoffOf nowMs days) uid snaps).reverse := by
  rw [showActivity, showActivityCollect_eq]

/-- C9: on an input whose chronologically last in-window entry for `u1` has
`last_action_timestamp` 0 while an earlier entry is nonzero, the summary
copies the 0 verbatim into `last_seen_timestamp`, keeps `days_active` = 1,
and the member renders as Offline. -/
theorem C9_zero_timestamp_last_entry :
    getActivitySummary 172800000 7 scenario9Snapshots scenario9Members =
      [("u1", { name := "Alpha", level := 10, days_in_faction := 5
                last_seen_timestamp := 0, last_seen_relative := "unknown"
                days_active := 1, total_polls := 2 })] ∧
    renderMembers 172800000
        (getActivitySummary 172800000 7 scenario9Snapshots scenario9Members) =
      [{ userId := "u1", name := "Alpha", last_seen_relative := "unknown"
         days_active := 1, statusText := "Offline" }] := by
  have h : getActivitySummary 172800000 7 scenario9Snapshots scenario9Members =
      [("u1", { name := "Alpha", level := 10, days_in_faction := 5
                last_seen_timestamp := 0, last_seen_relative := "unknown"
                days_active := 1, total_polls := 2 })] := by decide
  refine ⟨h, ?_⟩
  rw [h, renderMembers, List.mergeSort_singleton]
  simp [presenceLabel, minutesAgoOf]
  norm_num

/-- C3: assuming the snapshot sequence is strictly ordered oldest-first, the
summary entry of a member copies `last_seen_timestamp` and
`last_seen_relative` from the record of the chronologically last in-window
snapshot containing that member. -/
theorem C3_last_seen_from_last_snapshot (nowMs days : Int) (snaps : List Snapshot)
    (mems : List (String × Member)) (uid : String) (e : SummaryEntry)
    (hsort : snaps.Pairwise (fun a b => a.timestamp < b.timestamp))
    (h : (uid, e) ∈ getActivitySummary nowMs days snaps mems) :
    ∃ s r, s ∈ snaps ∧ cutoffOf nowMs days ≤ s.timestamp ∧
      jsIndex s.members uid = .record r ∧
      e.last_seen_timestamp = r.last_action_timestamp ∧
      e.last_seen_relative = r.last_action_relative ∧
      ∀ s' ∈ snaps, cutoffOf nowMs days ≤ s'.timestamp →
        (jsIndex s'.members uid).isTruthy = true → s'.timestamp ≤ s.timestamp := by
  rcases (mem_getActivitySummary nowMs days snaps mems uid e).mp h with ⟨m, -, hsome⟩
  rcases (summaryEntryFor_eq_some_iff _ _ _ _ _).mp hsome with ⟨mr, hlast, rfl⟩
  rcases List.getLast?_eq_some_iff.mp hlast with ⟨ys, hys⟩
  have hmr_mem : mr ∈ memberActivityOf (cutoffOf nowMs days) uid snaps := by
    rw [hys]
    simp
  rcases (mem_memberActivityOf _ _ _ _).mp hmr_mem with ⟨s, hs, hsome'⟩
  rcases (snapEntryFor_eq_some_iff _ _ _ _).mp hsome' with ⟨hle, r, hr, hmr⟩
  have hpl : (memberActivityOf (cutoffOf nowMs days) uid snaps).Pairwise
      (fun a b => a.timestamp < b.timestamp) := by
    rw [memberActivityOf]
    refine List.pairwise_filterMap.mpr (hsort.imp ?_)
    intro a b hab x hx y hy
    rw [snapEntryFor_timestamp (Option.mem_def.mp hx),
      snapEntryFor_timestamp (Option.mem_def.mp hy)]
    exact hab
  refine ⟨s, r, hs, hle, hr, by simp [hmr, entryOf], by simp [hmr, entryOf], ?_⟩
  intro s' hs' hle' ht'
  rcases (exists_snapEntryFor_iff _ _ _).mpr ⟨hle', ht'⟩ with ⟨a', ha'⟩
  have ha'_mem : a' ∈ memberActivityOf (cutoffOf nowMs days) uid snaps :=
    (mem_memberActivityOf _ _ _ _).mpr ⟨s', hs', ha'⟩
  have hts' : a'.timestamp = s'.timestamp := snapEntryFor_timestamp ha'
  have htsmr : mr.timestamp = s.timestamp := snapEntryFor_timestamp hsome'
  rw [hys] at ha'_mem hpl
  rcases List.mem_append.mp ha'_mem with hy | hm1
  · have hlt : a'.timestamp < mr.timestamp :=
      (List.pairwise_append.mp hpl).2.2 a' hy mr (by simp)
    rw [hts', htsmr] at hlt
    exact le_of_lt hlt
  · have heq : a' = mr := by simpa using hm1
    rw [← hts', ← htsmr, heq]

/-- Witness for C3 at a concrete input. -/
theorem C3_last_seen_witness :
    scenarioASnapshots.Pairwise (fun a b => a.timestamp < b.timestamp) ∧
    ("u1", { name := "Alpha", level := 10, days_in_faction := 5
             last_seen_timestamp := 1000, last_seen_relative := "10 minutes ago"
             days_active := 1, total_polls := 2 : SummaryEntry }) ∈
        getActivitySummary 2000000 7 scenarioASnapshots scenarioAMembers ∧
    (∃ s r, s ∈ scenarioASnapshots ∧ cutoffOf 2000000 7 ≤ s.timestamp ∧
      jsIndex s.members "u1" = .record r ∧
      ({ name := "Alpha", level := 10, days_in_faction := 5
         last_seen_timestamp := 1000, last_seen_relative := "10 minutes ago"
         days_active := 1, total_polls := 2 : SummaryEntry }).last_seen_timestamp =
          r.last_action_timestamp ∧
      ({ name := "Alpha", level := 10, days_in_faction := 5
         last_seen_timestamp := 1000, last_seen_relative := "10 minutes ago"
         days_active := 1, total_polls := 2 : SummaryEntry }).last_seen_relative =
          r.last_action_relative ∧
      ∀ s' ∈ scenarioASnapshots, cutoffOf 2000000 7 ≤ s'.timestamp →
        (jsIndex s'.members "u1").isTruthy = true → s'.timestamp ≤ s.timestamp) :=
  ⟨by decide, by decide,
    C3_last_seen_from_last_snapshot 2000000 7 scenarioASnapshots scenarioAMembers "u1"
      { name := "Alpha", level := 10, days_in_faction := 5
        last_seen_timestamp := 1000, last_seen_relative := "10 minutes ago"
        days_active := 1, total_polls := 2 } (by decide) (by decide)⟩

/-- C4: `days_active` equals the number of distinct calendar dates of the
nonzero `last_action_timestamp` values in the in-window list; if every
in-window entry has timestamp 0 then `days_active` = 0 while
`total_polls` > 0; Scenario A (two polls, same date) yields
`days_active` = 1 and `total_polls` = 2. -/
theorem C4_days_active_distinct_dates :
    (∀ (nowMs days : Int) (snaps : List Snapshot) (mems : List (String × Member))
        (uid : String) (e : SummaryEntry),
      (uid, e) ∈ getActivitySummary nowMs days snaps mems →
        e.days_active =
          (((memberActivityOf (cutoffOf nowMs days) uid snaps).filter
              (fun a => 0 < a.last_action_timestamp)).toFinset.image
                (fun a => localDate a.last_action_timestamp)).card ∧
        ((∀ a ∈ memberActivityOf (cutoffOf nowMs days) uid snaps,
            a.last_action_timestamp = 0) →
          e.days_active = 0 ∧ 0 < e.total_polls)) ∧
    getActivitySummary 2000000 7 scenarioASnapshots scenarioAMembers =
      [("u1", { name := "Alpha", level := 10, days_in_faction := 5
                last_seen_timestamp := 1000, last_seen_relative := "10 minutes ago"
                days_active := 1, total_polls := 2 })] := by
  constructor
  · intro nowMs days snaps mems uid e h
    rcases (mem_getActivitySummary nowMs days snaps mems uid e).mp h with ⟨m, -, hsome⟩
    rcases (summaryEntryFor_eq_some_iff _ _ _ _ _).mp hsome with ⟨mr, hlast, rfl⟩
    constructor
    · show (activeDatesOf _).card = _
      rw [activeDatesOf, list_toFinset_map]
    · intro hz
      constructor
      · show (activeDatesOf _).card = 0
        rw [activeDatesOf]
        have hnilf : (memberActivityOf (cutoffOf nowMs days) uid snaps).filter
            (fun a => 0 < a.last_action_timestamp) = [] := by
          rw [List.filter_eq_nil_iff]
          intro a ha
          simp [hz a ha]
        rw [hnilf]
        simp
      · show 0 < (memberActivityOf (cutoffOf nowMs days) uid snaps).length
        refine List.length_pos.mpr ?_
        intro h0
        rw [h0] at hlast
        simp at hlast
  · decide

/-- Witness for C4 at a concrete input. -/
theorem C4_days_active_witness :
    ("u1", { name := "Alpha", level := 10, days_in_faction := 5
             last_seen_timestamp := 1000, last_seen_relative := "10 minutes ago"
             days_active := 1, total_polls := 2 : SummaryEntry }) ∈
        getActivitySummary 2000000 7 scenarioASnapshots scenarioAMembers ∧
    (1 : Nat) =
      (((memberActivityOf (cutoffOf 2000000 7) "u1" scenarioASnapshots).filter
          (fun a => 0 < a.last_action_timestamp)).toFinset.image
            (fun a => localDate a.last_action_timestamp)).card :=
  ⟨by decide,
    (C4_days_active_distinct_dates.1 2000000 7 scenarioASnapshots scenarioAMembers "u1"
      { name := "Alpha", level := 10, days_in_faction := 5
        last_seen_timestamp := 1000, last_seen_relative := "10 minutes ago"
        days_active := 1, total_polls := 2 } (by decide)).1⟩

/-- C5: the presence label is a total, non-overlapping partition of the
elapsed-minutes line with boundaries exactly at 60 and 1440, and every row
of the member table carries the label computed from the elapsed minutes of
its summary entry. -/
theorem C5_presence_partition :
    (∀ m : ℚ,
      (presenceLabel m = "Online" ↔ m < 60) ∧
      (presenceLabel m = "Today" ↔ 60 ≤ m ∧ m < 1440) ∧
      (presenceLabel m = "Offline" ↔ 1440 ≤ m)) ∧
    (∀ (nowMs : Int) (summary : List (String × SummaryEntry)) (row : Row),
      row ∈ renderMembers nowMs summary →
        ∃ p ∈ summary,
          row.statusText = presenceLabel (minutesAgoOf nowMs p.2.last_seen_timestamp)) := by
  constructor
  · intro m
    refine ⟨?_, ?_, ?_⟩ <;> unfold presenceLabel <;> split_ifs with h1 h2 <;>
      simp_all <;> linarith
  · intro nowMs summary row hrow
    simp only [renderMembers, List.mem_map] at hrow
    rcases hrow with ⟨p, hp, rfl⟩
    exact ⟨p, List.mem_mergeSort.mp hp, rfl⟩

/-- Witness for C5 at a concrete input. -/
theorem C5_presence_partition_witness :
    presenceLabel 30 = "Online" ∧
    wRow ∈ renderMembers 0 [("u1", wEntry)] ∧
    (∃ p ∈ [("u1", wEntry)],
      wRow.statusText = presenceLabel (minutesAgoOf 0 p.2.last_seen_timestamp)) := by
  have hmem : wRow ∈ renderMembers 0 [("u1", wEntry)] := by
    rw [renderMembers, List.mergeSort_singleton]
    simp [wRow, wEntry]
  exact ⟨((C5_presence_partition.1 30).1).mpr (by norm_num), hmem,
    C5_presence_partition.2 0 [("u1", wEntry)] wRow hmem⟩

/-- C6: a non-OK fetch response is replaced by the empty default, logged as
a warning and rendered without a user-visible error (Scenario C gives the
"no data yet" placeholder); a throwing fetch is caught at the top level and
yields the single user-visible error view. -/
theorem C6_error_handling :
    (∀ (nowMs days : Int) (md : List (String × Member)),
      initializeDashboard nowMs days .nonOk (.ok (.ok md)) =
        ([.warnNoActivity], .noDataYet) ∧
      getActivitySummary nowMs days [] md = []) ∧
    (∀ (nowMs days : Int) (af : FetchOutcome (List Snapshot))
        (mf : FetchOutcome (List (String × Member))),
      af = .throwsErr ∨ mf = .throwsErr →
        initializeDashboard nowMs days af mf = ([.errorLoading], .errorLoadingData)) ∧
    (∀ (nowMs days : Int) (ad : List Snapshot),
      initializeDashboard nowMs days (.ok (.ok ad)) .nonOk =
        ([.warnNoMembers], renderDashboard nowMs days ad [])) ∧
    (∀ (nowMs days : Int) (ad : List Snapshot) (md : List (String × Member)),
      renderDashboard nowMs days ad md ≠ .errorLoadingData) := by
  refine ⟨?_, ?_, ?_, ?_⟩
  · intro nowMs days md
    refine ⟨rfl, ?_⟩
    simp [getActivitySummary, summaryEntryFor, memberActivityOf]
  · intro nowMs days af mf h
    rcases h with rfl | rfl
    · cases mf with
      | throwsErr => rfl
      | nonOk => rfl
      | ok j => cases j <;> rfl
    · cases af with
      | throwsErr => rfl
      | nonOk => rfl
      | ok j => cases j <;> rfl
  · intro nowMs days ad
    rfl
  · intro nowMs days ad md
    rw [renderDashboard]
    split <;> simp

/-- Witness for C6 at a concrete input. -/
theorem C6_error_handling_witness :
    (initializeDashboard 0 7 .nonOk (.ok (.ok scenarioAMembers)) =
      ([.warnNoActivity], .noDataYet) ∧
     getActivitySummary 0 7 [] scenarioAMembers = []) ∧
    initializeDashboard 0 7 .throwsErr .nonOk = ([.errorLoading], .errorLoadingData) :=
  ⟨C6_error_handling.1 0 7 scenarioAMembers,
   C6_error_handling.2.1 0 7 .throwsErr .nonOk (Or.inl rfl)⟩

/-- C8: with at least one snapshot loaded, the dashboard renders and its
"Data Logged" stat equals `floor((last - first) / 1 day) + 1` over the full
unfiltered snapshot sequence, independently of the selected window. -/
theorem C8_data_logged_span (nowMs days days' : Int) (snaps : List Snapshot)
    (mems : List (String × Member)) (h : snaps ≠ []) :
    ∃ stats rows, renderDashboard nowMs days snaps mems = .rendered stats rows ∧
      stats.loggedDays =
        Int.fdiv ((snaps.getLast h).timestamp - (snaps.head h).timestamp) msPerDay + 1 ∧
      ∀ stats' rows', renderDashboard nowMs days' snaps mems = .rendered stats' rows' →
        stats'.loggedDays = stats.loggedDays := by
  have hlen : ¬ snaps.length = 0 := fun h0 => h (List.length_eq_zero.mp h0)
  refine ⟨renderStats nowMs (getActivitySummary nowMs days snaps mems) snaps,
    renderMembers nowMs (getActivitySummary nowMs days snaps mems), ?_, ?_, ?_⟩
  · rw [renderDashboard]
    simp [hlen]
  · show Int.fdiv ((((snaps.getLast?).getD default).timestamp) -
        (((snaps.head?).getD default).timestamp)) msPerDay + 1 = _
    rw [List.getLast?_eq_getLast _ h, List.head?_eq_head h]
    rfl
  · intro stats' rows' h'
    have hr : renderDashboard nowMs days' snaps mems =
        .rendered (renderStats nowMs (getActivitySummary nowMs days' snaps mems) snaps)
          (renderMembers nowMs (getActivitySummary nowMs days' snaps mems)) := by
      rw [renderDashboard]
      simp [hlen]
    rw [hr] at h'
    injection h' with h1 h2
    rw [← h1]
    rfl

/-- Witness for C8 at a concrete input. -/
theorem C8_data_logged_witness :
    scenario9Snapshots ≠ [] ∧
    (∃ stats rows, renderDashboard 172800000 3 scenario9Snapshots scenario9Members =
        .rendered stats rows ∧
      stats.loggedDays =
        Int.fdiv ((scenario9Snapshots.getLast (by decide)).timestamp -
          (scenario9Snapshots.head (by decide)).timestamp) msPerDay + 1 ∧
      ∀ stats' rows',
        renderDashboard 172800000 5 scenario9Snapshots scenario9Members =
          .rendered stats' rows' → stats'.loggedDays = stats.loggedDays) :=
  ⟨by decide,
   C8_data_logged_span 172800000 3 5 scenario9Snapshots scenario9Members (by decide)⟩

/-- C10: a snapshot whose `members` object maps the member-id to a falsy
value is treated by both derivations as not containing the member: removing
it changes neither the in-window list (hence neither `total_polls`,
`days_active` nor the `last_seen` fields of the summary entry) nor the
rendered timeline. -/
theorem C10_falsy_entry_skipped (c nowMs days : Int) (uid : String) (m : Member)
    (pre post : List Snapshot) (s : Snapshot)
    (hf : jsIndex s.members uid = .falsy) :
    memberActivityOf c uid (pre ++ s :: post) = memberActivityOf c uid (pre ++ post) ∧
    summaryEntryFor c (pre ++ s :: post) uid m = summaryEntryFor c (pre ++ post) uid m ∧
    showActivity nowMs days uid (pre ++ s :: post) =
      showActivity nowMs days uid (pre ++ post) := by
  have hnone : ∀ c' : Int, snapEntryFor c' uid s = none := by
    intro c'
    by_cases hc : s.timestamp < c' <;> simp [snapEntryFor, hc, hf]
  have hact : ∀ c' : Int, memberActivityOf c' uid (pre ++ s :: post) =
      memberActivityOf c' uid (pre ++ post) := by
    intro c'
    simp [memberActivityOf, List.filterMap_append, List.filterMap_cons, hnone c']
  refine ⟨hact c, ?_, ?_⟩
  · simp only [summaryEntryFor, hact c]
  · rw [showActivity, showActivity, showActivityCollect_eq, showActivityCollect_eq, hact _]

/-- Witness for C10 at a concrete input. -/
theorem C10_falsy_entry_witness :
    jsIndex falsySnapshot.members "u1" = .falsy ∧
    (memberActivityOf (cutoffOf 2000000 7) "u1" (scenarioASnapshots ++ falsySnapshot :: []) =
        memberActivityOf (cutoffOf 2000000 7) "u1" (scenarioASnapshots ++ []) ∧
     summaryEntryFor (cutoffOf 2000000 7) (scenarioASnapshots ++ falsySnapshot :: [])
        "u1" scenarioAMember =
       summaryEntryFor (cutoffOf 2000000 7) (scenarioASnapshots ++ []) "u1" scenarioAMember ∧
     showActivity 2000000 7 "u1" (scenarioASnapshots ++ falsySnapshot :: []) =
       showActivity 2000000 7 "u1" (scenarioASnapshots ++ [])) :=
  ⟨by decide,
   C10_falsy_entry_skipped (cutoffOf 2000000 7) 2000000 7 "u1" scenarioAMember
     scenarioASnapshots [] falsySnapshot (by decide)⟩
